import Mathlib

/-!
Verification of the focus-tracking core of `tabster`
(`src/core/src/State/FocusedElement.ts`), via a shallow embedding.

Elements are identifiers (`Nat`); the collaborators that the class uses only
through their interface (the focusable-query engine, the root/modalizer
registry, DOM predicates) are modelled as environment structures of abstract
functions, exactly mirroring how the source calls them.
-/

namespace Tabster

/-- DOM elements, identified by an id. -/
abbrev Elem := Nat

/-! ## Native-focus interception (`replaceFocus` / `restoreFocus`, lines 256-281)

The value of `HTMLElement.prototype.focus` is either some base function
(carrying no `__ahFocus` tag) or a wrapper function whose `__ahFocus`
property references the function it wrapped. -/

/-- The focus primitive slot: a base function (untagged) or a wrapper
tagged with the function it wrapped (the `__ahFocus` property). -/
inductive FocusImpl where
  | base (id : Nat) : FocusImpl
  | wrapper (orig : FocusImpl) : FocusImpl
deriving DecidableEq, Repr

/-- Reading the `__ahFocus` tag of the current focus function. -/
def ahFocusTag : FocusImpl → Option FocusImpl
  | .base _ => none
  | .wrapper orig => some orig

/-- Model of `FocusedElementState.replaceFocus` (lines 256-272): if the current focus
function carries the `__ahFocus` tag, it is already set up and nothing
happens; otherwise install a wrapper tagged with the original. -/
def replaceFocus (f : FocusImpl) : FocusImpl :=
  match ahFocusTag f with
  | some _ => f
  | none => .wrapper f

/-- Model of `FocusedElementState.restoreFocus` (lines 274-281): look up the
`__ahFocus` tag; if present reinstate the original, otherwise do nothing. -/
def restoreFocus (f : FocusImpl) : FocusImpl :=
  match ahFocusTag f with
  | some orig => orig
  | none => f

/-- Number of wrappers stacked on the focus slot. -/
def wrapperCount : FocusImpl → Nat
  | .base _ => 0
  | .wrapper orig => wrapperCount orig + 1

/-! ## Grouper traversal (`_findNextGroupper`, `_findPageUpGroupper`,
`_findPageDownGroupper`, lines 523-626)

The focusable-query collaborator's `findNextGroupper`/`findPrevGroupper`
enumerate the sibling groupers in document order; we model that order as a
duplicate-free list `siblings`, so that repeatedly applying the successor
from an element walks the suffix of the list after it (and the predecessor
walks the suffix of the reversed list). -/

/-- Keyboard keys the handler dispatches on (`Keys`). -/
inductive Key where
  | enter | esc | tab | down | right | up | left | pageDown | pageUp | home | endKey
deriving DecidableEq, Repr

/-- The `Types.GroupperNextDirection` enumeration. -/
inductive GroupperNextDirection where
  | vertical | horizontal | both
deriving DecidableEq, Repr

/-- The part of `getBoundingClientRect()` the algorithm reads. -/
structure Rect where
  top : Int
  left : Int
deriving DecidableEq, Repr

/-- Environment for grouper traversal: sibling groupers in document order,
their bounding rectangles, and vertical visibility in the scroll container. -/
structure GroupperEnv where
  siblings : List Elem
  rect : Elem → Rect
  verticallyVisible : Elem → Bool

/-- The elements strictly after `e` in the list (empty if `e` is absent). -/
def chainAfter : List Elem → Elem → List Elem
  | [], _ => []
  | x :: xs, e => if x = e then xs else chainAfter xs e

/-- Successive `findNextGroupper` applications starting after `fromEl`. -/
def nextChain (env : GroupperEnv) (fromEl : Elem) : List Elem :=
  chainAfter env.siblings fromEl

/-- Successive `findPrevGroupper` applications starting before `fromEl`. -/
def prevChain (env : GroupperEnv) (fromEl : Elem) : List Elem :=
  chainAfter env.siblings.reverse fromEl

/-- Model of `focusable.findNextGroupper`. -/
def findNextGroupperQ (env : GroupperEnv) (e : Elem) : Option Elem :=
  (nextChain env e).head?

/-- Model of `focusable.findPrevGroupper`. -/
def findPrevGroupperQ (env : GroupperEnv) (e : Elem) : Option Elem :=
  (prevChain env e).head?

/-- The `for` loop of `_findNextGroupper` (lines 547-593), recursing over the
remaining traversal sequence with the loop state `(next, lastEl, prevTop)`;
a `break` returns `next || lastEl || null` immediately, skipping the
`lastEl = el` at the loop tail. -/
def geomLoop (rect : Elem → Rect) (fromRect : Rect) (key : Key) :
    List Elem → Option Elem → Option Elem → Option Int → Option Elem
  | [], next, lastEl, _ => next <|> lastEl
  | el :: rest, next, lastEl, prevTop =>
    let r := rect el
    match key with
    | .up =>
      if r.top < fromRect.top then
        match prevTop with
        | none =>
          if r.left < fromRect.left then
            (if next = none then some el else next) <|> lastEl
          else
            geomLoop rect fromRect key rest (some el) (some el) (some r.top)
        | some pt =>
          if r.top < pt then next <|> lastEl
          else if r.left < fromRect.left then
            (if next = none then some el else next) <|> lastEl
          else
            geomLoop rect fromRect key rest (some el) (some el) (some pt)
      else
        geomLoop rect fromRect key rest next (some el) prevTop
    | .down =>
      if r.top > fromRect.top then
        match prevTop with
        | none =>
          if r.left > fromRect.left then
            (if next = none then some el else next) <|> lastEl
          else
            geomLoop rect fromRect key rest (some el) (some el) (some r.top)
        | some pt =>
          if r.top > pt then next <|> lastEl
          else if r.left > fromRect.left then
            (if next = none then some el else next) <|> lastEl
          else
            geomLoop rect fromRect key rest (some el) (some el) (some pt)
      else
        geomLoop rect fromRect key rest next (some el) prevTop
    | .left => some el <|> lastEl
    | .right => some el <|> lastEl
    | _ => geomLoop rect fromRect key rest next (some el) prevTop

/-- Model of `_findNextGroupper(from, key, direction)` (lines 523-596). -/
def findNextGroupperImpl (env : GroupperEnv) (fromEl : Elem) (key : Key)
    (direction : Option GroupperNextDirection) : Option Elem :=
  if direction = some .vertical ∧ (key = .left ∨ key = .right) then none
  else if direction = some .horizontal ∧ (key = .up ∨ key = .down) then none
  else if direction = none ∨ direction = some .both then
    if key = .left ∨ key = .up then findPrevGroupperQ env fromEl
    else findNextGroupperQ env fromEl
  else
    let fromRect := env.rect fromEl
    let chain := if key = .down ∨ key = .right then nextChain env fromEl
                 else prevChain env fromEl
    geomLoop env.rect fromRect key chain none none none

/-- The `while` loop shared by `_findPageUpGroupper` and
`_findPageDownGroupper`: record the element reached, then continue to its
successor only while it is vertically visible. -/
def pageWalkAux (visible : Elem → Bool) : Elem → List Elem → Elem
  | e, rest =>
    if visible e then
      match rest with
      | [] => e
      | f :: r => pageWalkAux visible f r
    else e

/-- The whole loop: `null` when the first successor does not exist,
otherwise the element `pageWalkAux` stops at. -/
def pageWalk (visible : Elem → Bool) : List Elem → Option Elem
  | [] => none
  | e :: rest => some (pageWalkAux visible e rest)

/-- Model of `_findPageUpGroupper` (lines 598-611). -/
def findPageUpGroupper (env : GroupperEnv) (fromEl : Elem) : Option Elem :=
  pageWalk env.verticallyVisible (prevChain env fromEl)

/-- Model of `_findPageDownGroupper` (lines 613-626). -/
def findPageDownGroupper (env : GroupperEnv) (fromEl : Elem) : Option Elem :=
  pageWalk env.verticallyVisible (nextChain env fromEl)

/-- The PageDown/PageUp arms of `_onKeyDown` (lines 457-469): the chosen
target together with the `scrollIntoView` alignment flag (`true` = align to
top, used for PageDown; `false` = align to bottom, used for PageUp). -/
def handlePageKey (env : GroupperEnv) (key : Key) (groupperElement : Elem) :
    Option (Elem × Bool) :=
  match key with
  | .pageDown => (findPageDownGroupper env groupperElement).map (fun e => (e, true))
  | .pageUp => (findPageUpGroupper env groupperElement).map (fun e => (e, false))
  | _ => none

/-! ## Tab-key grouper override (`_onKeyDown` Tab branch, lines 339-367, and
`_getFirstInGroupper`, lines 505-509)

The focusable-query collaborator and the DOM are abstracted as an
environment of the functions the code calls. -/

/-- The `Types.GroupperFocusLimit` enumeration. -/
inductive GroupperFocusLimit where
  | unlimited | limited | limitedTrapFocus
deriving DecidableEq, Repr

/-- A grouper as the Tab branch reads it: its container element and its
`basicProps.isLimited` value. -/
structure Groupper where
  element : Elem
  isLimited : GroupperFocusLimit
deriving DecidableEq, Repr

/-- Focusable-query collaborator and DOM functions used by the Tab branch. -/
structure FocusableEnv where
  findNext : Elem → Option Elem
  findPrev : Elem → Option Elem
  findFirstIn : Elem → Bool → Option Elem
  findLastIn : Elem → Option Elem
  findNextIn : Elem → Elem → Option Elem
  isFocusable : Elem → Bool
  contains : Elem → Elem → Bool
  parentElement : Elem → Option Elem
  getGroupper : Elem → Option Groupper

/-- Model of `_getFirstInGroupper(groupperElement, ignoreGroupper)`. -/
def getFirstInGroupper (env : FocusableEnv) (groupperElement : Elem)
    (ignoreGroupper : Bool) : Option Elem :=
  if env.isFocusable groupperElement then some groupperElement
  else env.findFirstIn groupperElement ignoreGroupper

/-- The `!next || (next === first) || !groupperElement.contains(next)`
condition of line 351 (a JS `contains(null)` is `false`). -/
def escapesGroupper (env : FocusableEnv) (gel first : Elem) : Option Elem → Bool
  | none => true
  | some n => n == first || !(env.contains gel n)

/-- The `!parentGroupper.getElement().contains(next)` condition of
line 361. -/
def outsideParentGroupper (env : FocusableEnv) (pgel : Elem) : Option Elem → Bool
  | none => true
  | some n => !(env.contains pgel n)

/-- Lines 339-367 of `_onKeyDown`: compute the Tab/Shift+Tab candidate for
the (possibly modalizer-switched) current element `cur`, including the
limited-grouper wrap-around override. -/
def computeTabNext (env : FocusableEnv) (cur : Elem) (shift : Bool) : Option Elem :=
  let next := if shift then env.findPrev cur else env.findNext cur
  match env.getGroupper cur with
  | none => next
  | some g =>
    let gel := g.element
    match getFirstInGroupper env gel false with
    | none => next
    | some first =>
      if cur ≠ first ∧ g.isLimited = .limitedTrapFocus ∧
          escapesGroupper env gel first next = true then
        if shift then env.findLastIn gel else env.findNextIn first gel
      else if cur = first then
        match env.parentElement gel with
        | none => next
        | some pe =>
          match env.getGroupper pe with
          | none => next
          | some pg =>
            if outsideParentGroupper env pg.element next = true ∧
                pg.isLimited = .limitedTrapFocus then
              some cur
            else next
      else next

/-! ## Focus validation / modalizer reconciliation
(`_validateFocusedElement`, lines 628-670)

The function always calls `focusable.setCurrentGroupper(element)` first
(line 632); the modalizer-relevant outcome afterwards is one of the actions
below. `element.ownerDocument` is always present for a DOM element, so the
guard of line 650 is always taken in the redirect branch. -/

/-- What `RootAPI.findRootAndModalizer` returns, restricted to the fields
this function reads: the root's element and current modalizer id, and the
resolved modalizer's `userId` (absent when no modalizer resolved). -/
structure RootModPair where
  rootElement : Elem
  rootCurrentModalizerId : Option Nat
  modalizerUserId : Option Nat
deriving DecidableEq, Repr

/-- Collaborator functions used by `_validateFocusedElement`:
`precedes a b` models `b.compareDocumentPosition(a) & DOCUMENT_POSITION_PRECEDING`
(`a` comes before `b` in document order); `body` is
`element.ownerDocument.body`. -/
structure ValidateEnv where
  findRootAndModalizer : Elem → Option RootModPair
  findFirstIn : Elem → Option Elem
  findLastIn : Elem → Option Elem
  body : Elem
  precedes : Elem → Elem → Bool

/-- The observable outcome of `_validateFocusedElement` after its initial
`setCurrentGroupper` call. -/
inductive ValidateAction where
  | accept
  | adoptModalizer (id : Nat)
  | refocus (target : Elem)
  | blurElement
  | fatalError
deriving DecidableEq, Repr

/-- Model of `_validateFocusedElement(element, details)` (lines 628-670). -/
def validateFocusedElement (env : ValidateEnv) (element : Elem)
    (isFocusedProgrammatically : Bool) : ValidateAction :=
  match env.findRootAndModalizer element with
  | none => .accept
  | some rm =>
    match rm.modalizerUserId with
    | none => .accept
    | some eId =>
      if rm.rootCurrentModalizerId = some eId then .accept
      else if rm.rootCurrentModalizerId = none ∨ isFocusedProgrammatically = true then
        .adoptModalizer eId
      else
        match env.findFirstIn rm.rootElement with
        | some toFocus =>
          if env.precedes toFocus element then
            match env.findLastIn env.body with
            | some lastEl => .refocus lastEl
            | none => .fatalError
          else .refocus toFocus
        | none => .blurElement

/-! ## Re-entrant snapshot supersession (`_setFocusedElement`, lines 206-237)

A call builds its `_nextVal` snapshot, runs validation — which may
synchronously re-enter `_setFocusedElement`, here represented by the list
of the nested calls' elements — then publishes via `setVal` only if
`_nextVal` is still the very snapshot this call created (object identity,
modelled by a fresh counter id), and finally clears `_nextVal`. -/

/-- The tracker state relevant to snapshot supersession. -/
structure PubState where
  nextValId : Option Nat
  counter : Nat
  published : Option (Option Elem)
  pubCount : Nat
deriving DecidableEq, Repr

/-- A chain of re-entrant `_setFocusedElement` invocations: the head is the
outermost call's element, the tail the calls its validation nests inside
it. -/
def setFocusedChain : PubState → List (Option Elem) → PubState
  | s, [] => s
  | s, e :: rest =>
    let id := s.counter
    let s1 : PubState := { s with counter := s.counter + 1, nextValId := some id }
    let s2 := setFocusedChain s1 rest
    let s3 : PubState :=
      if s2.nextValId = some id then
        { s2 with published := some e, pubCount := s2.pubCount + 1 }
      else s2
    { s3 with nextValId := none }

/-! ## Programmatic-focus attribution (`_setFocusedElement`, lines 206-237,
non-re-entrant view)

One invocation of `_setFocusedElement`, with validation's possible nested
refocus modelled separately (`setFocusedChain`, `validateFocusedElement`):
here we track the marker bookkeeping and the published snapshot. -/

/-- The tracker state relevant to programmatic attribution. -/
structure TrackerState where
  canOverrideNativeFocus : Bool
  lastFocusedProgrammatically : Option Elem
  lastResetElement : Option Elem
deriving DecidableEq, Repr

/-- The `Types.FocusedElementDetails` record, restricted to the attribution flag. -/
structure FocusDetails where
  isFocusedProgrammatically : Option Bool
deriving DecidableEq, Repr

/-- Whether the invocation discards the event (last-reset element or
`shouldIgnoreFocus`) or publishes a snapshot. -/
inductive FocusInOutcome where
  | discarded
  | publish (element : Option Elem) (details : FocusDetails)
deriving DecidableEq, Repr

/-- One non-re-entrant `_setFocusedElement(element)` invocation;
`ignore` is the `shouldIgnoreFocus` predicate. -/
def setFocusedStep (ignore : Elem → Bool) (s : TrackerState) (element : Option Elem) :
    TrackerState × FocusInOutcome :=
  match element with
  | some el =>
    let lastReset := s.lastResetElement
    let s1 : TrackerState := { s with lastResetElement := none }
    if lastReset = some el ∨ ignore el = true then (s1, .discarded)
    else if s1.canOverrideNativeFocus = true ∨ s1.lastFocusedProgrammatically ≠ none then
      ({ s1 with lastFocusedProgrammatically := none },
       .publish (some el)
         { isFocusedProgrammatically :=
             some (decide (s1.lastFocusedProgrammatically = some el)) })
    else (s1, .publish (some el) { isFocusedProgrammatically := none })
  | none => (s, .publish none { isFocusedProgrammatically := none })

/-! ## `resetFocus` (lines 173-196), `focus` (lines 137-147),
`_setOrRemoveAttribute` (lines 198-204)

The container's `tabindex` and `aria-hidden` attributes are the mutable DOM
state the routine touches (the IDL write `container.tabIndex = -1` reflects
to the `tabindex` attribute); `isFocusable` is the collaborator's check as
a function of those attributes and its three option flags. -/

/-- The container's attributes read and written by `resetFocus`. -/
structure ElemAttrs where
  tabindex : Option String
  ariaHidden : Option String
deriving DecidableEq, Repr

/-- Collaborator functions used by `resetFocus`, for a fixed container:
`isFocusable attrs noProgFlag noVisibleCheck noAccessibleCheck`. -/
structure ResetEnv where
  isVisible : Bool
  isFocusable : ElemAttrs → Bool → Bool → Bool → Bool

/-- The state `resetFocus` touches. -/
structure ResetState where
  containerAttrs : ElemAttrs
  lastResetElement : Option Elem
  lastFocusedProgrammatically : Option Elem
  activeElement : Option Elem
deriving DecidableEq, Repr

/-- Model of `focus(container, noProgFlag, noAccessibleCheck)` (lines 137-147):
check `isFocusable(element, noProgFlag, false, noAccessibleCheck)`; on
success record the programmatic marker and invoke the native focus
primitive (the element becomes the document's active element). -/
def focusOp (env : ResetEnv) (s : ResetState) (container : Elem)
    (noProgFlag noAccessibleCheck : Bool) : ResetState × Bool :=
  if env.isFocusable s.containerAttrs noProgFlag false noAccessibleCheck = false then
    (s, false)
  else
    ({ s with lastFocusedProgrammatically := some container,
              activeElement := some container }, true)

/-- Model of `_setOrRemoveAttribute` for the `tabindex` attribute. -/
def setOrRemoveTabindex (a : ElemAttrs) (value : Option String) : ElemAttrs :=
  { a with tabindex := value }

/-- Model of `_setOrRemoveAttribute` for the `aria-hidden` attribute. -/
def setOrRemoveAriaHidden (a : ElemAttrs) (value : Option String) : ElemAttrs :=
  { a with ariaHidden := value }

/-- Model of `resetFocus(container)` (lines 173-196). -/
def resetFocus (env : ResetEnv) (s : ResetState) (container : Elem) :
    ResetState × Bool :=
  if env.isVisible = false then (s, false)
  else if env.isFocusable s.containerAttrs true true true = false then
    let prevTabIndex := s.containerAttrs.tabindex
    let prevAriaHidden := s.containerAttrs.ariaHidden
    let s1 : ResetState :=
      { s with containerAttrs :=
          { s.containerAttrs with tabindex := some "-1", ariaHidden := some "true" } }
    let s2 : ResetState := { s1 with lastResetElement := some container }
    let s3 := (focusOp env s2 container true true).1
    let s4 : ResetState :=
      { s3 with containerAttrs :=
          (setOrRemoveAriaHidden (setOrRemoveTabindex s3.containerAttrs prevTabIndex)
            prevAriaHidden) }
    (s4, true)
  else
    ((focusOp env s container false false).1, true)

/-! ## Mouse-down handler (`_onMouseDown`, lines 283-289) -/

/-- Model of `_onMouseDown`: resolve the grouper enclosing the event target via
`focusable.findGroupper`; if found, it becomes the current grouper via
`focusable.setCurrentGroupper`. Returns the new current-grouper selection. -/
def onMouseDown (findGroupper : Elem → Option Elem) (currentGroupper : Option Elem)
    (target : Elem) : Option Elem :=
  match findGroupper target with
  | some g => some g
  | none => currentGroupper

/-! ## Concrete environments used to instantiate the theorems -/

/-- Three sibling groupers `1, 2, 3` at rows `(top 0, left 0)`,
`(top 0, left 50)`, `(top 20, left 0)`, all vertically visible. -/
def threeGrouppersEnv : GroupperEnv :=
  { siblings := [1, 2, 3]
    rect := fun e => if e = 1 then ⟨0, 0⟩ else if e = 2 then ⟨0, 50⟩ else ⟨20, 0⟩
    verticallyVisible := fun _ => true }

/-- A limited-trap grouper `10` whose focusable elements in order are
`1, 2, 3` (`A, B, C`); element `1` is also the document's first focusable
element, so `findPrev 1` is `null`, and `findNext 3` is `null`. -/
def trapGroupperEnv : FocusableEnv :=
  { findNext := fun e => if e = 1 then some 2 else if e = 2 then some 3 else none
    findPrev := fun e => if e = 3 then some 2 else if e = 2 then some 1 else none
    findFirstIn := fun c _ => if c = 10 then some 1 else none
    findLastIn := fun c => if c = 10 then some 3 else none
    findNextIn := fun f c =>
      if c = 10 then
        (if f = 1 then some 2 else if f = 2 then some 3 else none)
      else none
    isFocusable := fun e => decide (e = 1 ∨ e = 2 ∨ e = 3)
    contains := fun c e => decide (c = 10 ∧ (e = 1 ∨ e = 2 ∨ e = 3))
    parentElement := fun _ => none
    getGroupper := fun e =>
      if e = 1 ∨ e = 2 ∨ e = 3 then some ⟨10, .limitedTrapFocus⟩ else none }

/-- Four sibling groupers `1, 2, 3, 4`; only `1` and `2` are vertically
visible in the scroll container. -/
def pageRunEnv : GroupperEnv :=
  { siblings := [1, 2, 3, 4]
    rect := fun _ => ⟨0, 0⟩
    verticallyVisible := fun e => decide (e = 1 ∨ e = 2) }

/-- Element `5` resolves to root `100` (current modalizer id `1`) and a
modalizer with `userId` `2`; the root's first focusable is `7`, which does
not precede `5`. -/
def modalizerEnv : ValidateEnv :=
  { findRootAndModalizer := fun e => if e = 5 then some ⟨100, some 1, some 2⟩ else none
    findFirstIn := fun r => if r = 100 then some 7 else none
    findLastIn := fun b => if b = 99 then some 8 else none
    body := 99
    precedes := fun _ _ => false }

/-- Like `modalizerEnv`, but the root's first focusable `7` precedes the
offending element and the focusable query finds no last element in the
body: the inconsistent-collaborator situation. -/
def modalizerEnvInconsistent : ValidateEnv :=
  { findRootAndModalizer := fun e => if e = 5 then some ⟨100, some 1, some 2⟩ else none
    findFirstIn := fun r => if r = 100 then some 7 else none
    findLastIn := fun _ => none
    body := 99
    precedes := fun a b => decide (a = 7 ∧ b = 5) }

/-- An environment where `isFocusable` holds exactly when the `tabindex` attribute is `-1`. -/
def tabindexResetEnv : ResetEnv :=
  { isVisible := true
    isFocusable := fun a _ _ _ => a.tabindex == some "-1" }

/-! ## Theorems -/

/-- C6: installing native-focus interception (`replaceFocus`) twice on a
slot holding an untagged focus primitive is the same as installing once and
leaves exactly one wrapper; restoring (`restoreFocus`) twice after an
install is the same as restoring once, and restoring an already-restored
(untagged) primitive is a no-op. -/
theorem replace_restore_focus_idempotent (f : FocusImpl) (h : ahFocusTag f = none) :
    replaceFocus (replaceFocus f) = replaceFocus f ∧
    replaceFocus (replaceFocus f) = .wrapper f ∧
    wrapperCount (replaceFocus (replaceFocus f)) = wrapperCount f + 1 ∧
    restoreFocus (restoreFocus (replaceFocus f)) = restoreFocus (replaceFocus f) ∧
    restoreFocus f = f := by
  cases f with
  | base i => simp [replaceFocus, restoreFocus, ahFocusTag, wrapperCount]
  | wrapper o => simp [ahFocusTag] at h

/-- Witness for `replace_restore_focus_idempotent` at the untagged base
primitive. -/
theorem replace_restore_focus_idempotent_witness :
    ahFocusTag (.base 0) = none ∧
    (replaceFocus (replaceFocus (.base 0)) = replaceFocus (.base 0) ∧
     replaceFocus (replaceFocus (.base 0)) = .wrapper (.base 0) ∧
     wrapperCount (replaceFocus (replaceFocus (.base 0))) = wrapperCount (.base 0) + 1 ∧
     restoreFocus (restoreFocus (replaceFocus (.base 0))) = restoreFocus (replaceFocus (.base 0)) ∧
     restoreFocus (.base 0) = .base 0) :=
  ⟨rfl, replace_restore_focus_idempotent (.base 0) rfl⟩

/-- C10: on a capture-phase mousedown whose target lies inside a grouper
(`findGroupper` resolves one), the handler records that grouper as the
current-grouper selection, with no focus change or key press involved. -/
theorem mousedown_sets_current_groupper (findGroupper : Elem → Option Elem)
    (currentGroupper : Option Elem) (target g : Elem)
    (h : findGroupper target = some g) :
    onMouseDown findGroupper currentGroupper target = some g := by
  simp [onMouseDown, h]

/-- Witness for `mousedown_sets_current_groupper`: target `4` inside
grouper `10`. -/
theorem mousedown_sets_current_groupper_witness :
    (fun t : Elem => if t = 4 then some 10 else none) 4 = some (10 : Elem) ∧
    onMouseDown (fun t : Elem => if t = 4 then some 10 else none) none 4 = some 10 :=
  ⟨by decide, mousedown_sets_current_groupper _ none 4 10 (by decide)⟩

/-- One unfolding step of `setFocusedChain`. -/
theorem setFocusedChain_cons (s : PubState) (e : Option Elem)
    (rest : List (Option Elem)) :
    setFocusedChain s (e :: rest) =
      (let s2 := setFocusedChain
         { s with counter := s.counter + 1, nextValId := some s.counter } rest
       let s3 := if s2.nextValId = some s.counter then
           { s2 with published := some e, pubCount := s2.pubCount + 1 }
         else s2
       { s3 with nextValId := none }) := rfl

/-- C4: in a chain of re-entrant `_setFocusedElement` calls within one
event dispatch, every outer call detects the supersession via the
`_nextVal` identity comparison, so exactly one `setVal` publish happens and
the published snapshot is the innermost (most recent) one; afterwards no
snapshot is in flight. -/
theorem innermost_snapshot_published (e : Option Elem) (rest : List (Option Elem)) :
    ∀ s : PubState,
      (setFocusedChain s (e :: rest)).published = (e :: rest).getLast? ∧
      (setFocusedChain s (e :: rest)).pubCount = s.pubCount + 1 ∧
      (setFocusedChain s (e :: rest)).nextValId = none := by
  induction rest generalizing e with
  | nil =>
    intro s
    simp [setFocusedChain, List.getLast?]
  | cons f rest ih =>
    intro s
    obtain ⟨h1, h2, h3⟩ :=
      ih f { s with counter := s.counter + 1, nextValId := some s.counter }
    rw [setFocusedChain_cons]
    simp [h1, h2, h3, List.getLast?_cons_cons]

/-- C5: the programmatic-focus marker is a single `Option` slot (at most
one element at a time); on a focus-in that is not discarded, whenever the
native-focus-override capability is active or the marker is set, the
published details carry `isFocusedProgrammatically = true` iff the event
target equals the marker's element, and the marker is cleared in the same
step regardless of the match. -/
theorem programmatic_attribution_exactly_once (ignore : Elem → Bool)
    (s : TrackerState) (el : Elem)
    (hreset : s.lastResetElement ≠ some el) (hign : ignore el = false)
    (hattr : s.canOverrideNativeFocus = true ∨ s.lastFocusedProgrammatically ≠ none) :
    (setFocusedStep ignore s (some el)).1.lastFocusedProgrammatically = none ∧
    (setFocusedStep ignore s (some el)).2 =
      .publish (some el)
        { isFocusedProgrammatically :=
            some (decide (s.lastFocusedProgrammatically = some el)) } := by
  have hcond : ¬ (s.lastResetElement = some el ∨ ignore el = true) := by
    rintro (h | h)
    · exact hreset h
    · rw [hign] at h; cases h
  simp [setFocusedStep, hcond, hattr]

/-- Witness for `programmatic_attribution_exactly_once`: capability active,
marker holding element `5`, focus-in on `5`. -/
theorem programmatic_attribution_exactly_once_witness :
    ((⟨true, some 5, none⟩ : TrackerState).lastResetElement ≠ some 5 ∧
     (fun _ : Elem => false) 5 = false ∧
     ((⟨true, some 5, none⟩ : TrackerState).canOverrideNativeFocus = true ∨
      (⟨true, some 5, none⟩ : TrackerState).lastFocusedProgrammatically ≠ none)) ∧
    ((setFocusedStep (fun _ => false) ⟨true, some 5, none⟩ (some 5)).1.lastFocusedProgrammatically = none ∧
     (setFocusedStep (fun _ => false) ⟨true, some 5, none⟩ (some 5)).2 =
       .publish (some 5)
         { isFocusedProgrammatically :=
             some (decide ((⟨true, some 5, none⟩ : TrackerState).lastFocusedProgrammatically = some 5)) }) :=
  ⟨⟨by decide, rfl, by decide⟩,
   programmatic_attribution_exactly_once (fun _ => false) ⟨true, some 5, none⟩ 5
     (by decide) rfl (by decide)⟩

/-- C7: `resetFocus(container)` returns `false` and changes nothing when
the container is not visible; for a visible container that is not itself
focusable (but becomes focusable once `tabindex` is `-1` and `aria-hidden`
is `true`), it returns `true`, the container ends up as the document's
focused (active) element and as the recorded last-reset element, and the
container's `tabindex`/`aria-hidden` attributes are restored exactly
(presence and value) to their pre-call state. -/
theorem resetFocus_round_trip (env : ResetEnv) (s : ResetState) (container : Elem)
    (hnf : env.isFocusable s.containerAttrs true true true = false)
    (hf : env.isFocusable ⟨some "-1", some "true"⟩ true false true = true) :
    (env.isVisible = false → resetFocus env s container = (s, false)) ∧
    (env.isVisible = true →
      (resetFocus env s container).2 = true ∧
      (resetFocus env s container).1.containerAttrs = s.containerAttrs ∧
      (resetFocus env s container).1.activeElement = some container ∧
      (resetFocus env s container).1.lastResetElement = some container) := by
  constructor
  · intro hv
    simp [resetFocus, hv]
  · intro hv
    simp [resetFocus, hv, hnf, focusOp, hf, setOrRemoveTabindex, setOrRemoveAriaHidden]

/-- Witness for `resetFocus_round_trip`: container `42`, initial attributes
`tabindex="5"`, no `aria-hidden`, in the environment where only
`tabindex="-1"` is focusable. -/
theorem resetFocus_round_trip_witness :
    (tabindexResetEnv.isFocusable ⟨some "5", none⟩ true true true = false ∧
     tabindexResetEnv.isFocusable ⟨some "-1", some "true"⟩ true false true = true) ∧
    ((resetFocus tabindexResetEnv ⟨⟨some "5", none⟩, none, none, none⟩ 42).2 = true ∧
     (resetFocus tabindexResetEnv ⟨⟨some "5", none⟩, none, none, none⟩ 42).1.containerAttrs = ⟨some "5", none⟩ ∧
     (resetFocus tabindexResetEnv ⟨⟨some "5", none⟩, none, none, none⟩ 42).1.activeElement = some 42 ∧
     (resetFocus tabindexResetEnv ⟨⟨some "5", none⟩, none, none, none⟩ 42).1.lastResetElement = some 42) :=
  ⟨⟨by decide, by decide⟩,
   (resetFocus_round_trip tabindexResetEnv ⟨⟨some "5", none⟩, none, none, none⟩ 42
     (by decide) (by decide)).2 rfl⟩

/-- C1: when a non-programmatic focus lands on an element whose
modalizer's `userId` differs from the root's current modalizer id,
validation redirects to the first focusable element of the active root, or
— if that element precedes the newly focused one in document order — to
the last focusable element of the document body, or blurs the element when
the active root has no focusable element; in no case is the offending
focus accepted or its modalizer adopted. -/
theorem modalizer_containment (env : ValidateEnv) (element : Elem)
    (rm : RootModPair) (eId curId : Nat)
    (hfind : env.findRootAndModalizer element = some rm)
    (hmod : rm.modalizerUserId = some eId)
    (hcur : rm.rootCurrentModalizerId = some curId)
    (hne : curId ≠ eId) :
    (env.findFirstIn rm.rootElement = none →
      validateFocusedElement env element false = .blurElement) ∧
    (∀ f, env.findFirstIn rm.rootElement = some f →
      env.precedes f element = false →
      validateFocusedElement env element false = .refocus f) ∧
    (∀ f l, env.findFirstIn rm.rootElement = some f →
      env.precedes f element = true →
      env.findLastIn env.body = some l →
      validateFocusedElement env element false = .refocus l) ∧
    validateFocusedElement env element false ≠ .accept ∧
    (∀ i, validateFocusedElement env element false ≠ .adoptModalizer i) := by
  have hc1 : ¬ (rm.rootCurrentModalizerId = some eId) := by
    rw [hcur]; simpa using hne
  have hc2 : rm.rootCurrentModalizerId ≠ none := by
    rw [hcur]; simp
  refine ⟨?_, ?_, ?_, ?_, ?_⟩
  · intro hff
    simp [validateFocusedElement, hfind, hmod, hc1, hc2, hff]
  · intro f hff hp
    simp [validateFocusedElement, hfind, hmod, hc1, hc2, hff, hp]
  · intro f l hff hp hl
    simp [validateFocusedElement, hfind, hmod, hc1, hc2, hff, hp, hl]
  · cases hff : env.findFirstIn rm.rootElement with
    | none => simp [validateFocusedElement, hfind, hmod, hc1, hc2, hff]
    | some f =>
      by_cases hp : env.precedes f element = true
      · cases hl : env.findLastIn env.body with
        | none => simp [validateFocusedElement, hfind, hmod, hc1, hc2, hff, hp, hl]
        | some l => simp [validateFocusedElement, hfind, hmod, hc1, hc2, hff, hp, hl]
      · simp [validateFocusedElement, hfind, hmod, hc1, hc2, hff, hp]
  · intro i
    cases hff : env.findFirstIn rm.rootElement with
    | none => simp [validateFocusedElement, hfind, hmod, hc1, hc2, hff]
    | some f =>
      by_cases hp : env.precedes f element = true
      · cases hl : env.findLastIn env.body with
        | none => simp [validateFocusedElement, hfind, hmod, hc1, hc2, hff, hp, hl]
        | some l => simp [validateFocusedElement, hfind, hmod, hc1, hc2, hff, hp, hl]
      · simp [validateFocusedElement, hfind, hmod, hc1, hc2, hff, hp]

/-- Witness for `modalizer_containment`: element `5` outside the active
modalizer (ids `2` vs current `1`), redirected to the root's first
focusable `7`. -/
theorem modalizer_containment_witness :
    validateFocusedElement modalizerEnv 5 false = .refocus 7 :=
  (modalizer_containment modalizerEnv 5 ⟨100, some 1, some 2⟩ 2 1
    (by decide) (by decide) (by decide) (by decide)).2.1 7 (by decide) (by decide)

/-- C8: `_validateFocusedElement` throws exactly when an unprivileged,
non-programmatic focus lands outside the active modalizer, the
focusable-query collaborator returns a first focusable element of the
active root that precedes the offending element, but then returns no last
focusable element for the document body; when instead the active root has
no first focusable element, the element is blurred and no error is raised;
every other path yields a non-throwing action. -/
theorem single_fatal_condition (env : ValidateEnv) (element : Elem) (prog : Bool) :
    (validateFocusedElement env element prog = .fatalError ↔
      ∃ rm eId f, env.findRootAndModalizer element = some rm ∧
        rm.modalizerUserId = some eId ∧
        rm.rootCurrentModalizerId ≠ some eId ∧
        rm.rootCurrentModalizerId ≠ none ∧
        prog = false ∧
        env.findFirstIn rm.rootElement = some f ∧
        env.precedes f element = true ∧
        env.findLastIn env.body = none) ∧
    (∀ rm eId, env.findRootAndModalizer element = some rm →
      rm.modalizerUserId = some eId →
      rm.rootCurrentModalizerId ≠ some eId →
      rm.rootCurrentModalizerId ≠ none →
      prog = false →
      env.findFirstIn rm.rootElement = none →
      validateFocusedElement env element prog = .blurElement) := by
  constructor
  · constructor
    · intro h
      cases hfr : env.findRootAndModalizer element with
      | none => simp [validateFocusedElement, hfr] at h
      | some rm =>
        cases hmu : rm.modalizerUserId with
        | none => simp [validateFocusedElement, hfr, hmu] at h
        | some eId =>
          by_cases h1 : rm.rootCurrentModalizerId = some eId
          · simp [validateFocusedElement, hfr, hmu, h1] at h
          · by_cases h2 : rm.rootCurrentModalizerId = none ∨ prog = true
            · simp [validateFocusedElement, hfr, hmu, h1, h2] at h
            · have h2a : rm.rootCurrentModalizerId ≠ none := fun hc => h2 (Or.inl hc)
              have h2b : prog = false := by
                cases prog
                · rfl
                · exact absurd (Or.inr rfl) h2
              cases hff : env.findFirstIn rm.rootElement with
              | none =>
                simp [validateFocusedElement, hfr, hmu, h1, h2, hff] at h
              | some f =>
                by_cases hp : env.precedes f element = true
                · cases hl : env.findLastIn env.body with
                  | some l =>
                    simp [validateFocusedElement, hfr, hmu, h1, h2, hff, hp, hl] at h
                  | none =>
                    exact ⟨rm, eId, f, rfl, hmu, h1, h2a, h2b, hff, hp, rfl⟩
                · simp [validateFocusedElement, hfr, hmu, h1, h2, hff, hp] at h
    · rintro ⟨rm, eId, f, hfr, hmu, h1, h2, hprog, hff, hp, hl⟩
      subst hprog
      simp [validateFocusedElement, hfr, hmu, h1, h2, hff, hp, hl]
  · intro rm eId hfr hmu h1 h2 hprog hff
    subst hprog
    simp [validateFocusedElement, hfr, hmu, h1, h2, hff]

/-- Witness for `single_fatal_condition`: the fatal branch reached in the
inconsistent environment, and the blur branch unreachable there. -/
theorem single_fatal_condition_witness :
    validateFocusedElement modalizerEnvInconsistent 5 false = .fatalError :=
  (single_fatal_condition modalizerEnvInconsistent 5 false).1.mpr
    ⟨⟨100, some 1, some 2⟩, 2, 7, by decide, by decide, by decide, by decide,
     rfl, by decide, by decide, by decide⟩

/-- C2 counterexample: with `nextDirection` Both (or unset), pressing
Down from the first of the three claim groupers selects the *second*
grouper (the plain next sibling), not the third demanded by the claim —
the geometric tie-break is not used for Both/unset. -/
theorem geometric_tiebreak_both_counterexample :
    findNextGroupperImpl threeGrouppersEnv 1 .down (some .both) = some 2 ∧
    findNextGroupperImpl threeGrouppersEnv 1 .down none = some 2 ∧
    some (2 : Elem) ≠ some (3 : Elem) := by decide

/-- C3 counterexample: in the limited trap grouper with focusables
`[1, 2, 3]` (`A, B, C`), Shift+Tab from `A` (the grouper's first focusable
element, with no default previous candidate) yields no candidate rather
than wrapping to `C` — the wrap branch requires the current element to
*differ* from the grouper's first focusable. -/
theorem trap_wrap_counterexample :
    computeTabNext trapGroupperEnv 1 true = none ∧
    computeTabNext trapGroupperEnv 1 true ≠ some 3 := by decide

/-- C2 amended: a Vertical grouper yields no target for Left/Right and a
Horizontal one none for Up/Down; for Both or unset direction the target is
simply the adjacent sibling grouper (previous for Up/Left, next for
Down/Right) with no geometry consulted; the geometric tie-break runs for
the remaining combinations (Vertical with Up/Down, Horizontal with
Left/Right), and on the claim's three-grouper layout, Down from the first
under Vertical direction selects the third grouper, not the second. -/
theorem geometric_tiebreak_amended (env : GroupperEnv) (fromEl : Elem) :
    (findNextGroupperImpl env fromEl .left (some .vertical) = none ∧
     findNextGroupperImpl env fromEl .right (some .vertical) = none ∧
     findNextGroupperImpl env fromEl .up (some .horizontal) = none ∧
     findNextGroupperImpl env fromEl .down (some .horizontal) = none) ∧
    (findNextGroupperImpl env fromEl .up (some .both) = findPrevGroupperQ env fromEl ∧
     findNextGroupperImpl env fromEl .left (some .both) = findPrevGroupperQ env fromEl ∧
     findNextGroupperImpl env fromEl .down (some .both) = findNextGroupperQ env fromEl ∧
     findNextGroupperImpl env fromEl .right (some .both) = findNextGroupperQ env fromEl ∧
     findNextGroupperImpl env fromEl .up none = findPrevGroupperQ env fromEl ∧
     findNextGroupperImpl env fromEl .down none = findNextGroupperQ env fromEl) ∧
    (findNextGroupperImpl threeGrouppersEnv 1 .down (some .vertical) = some 3 ∧
     findNextGroupperQ threeGrouppersEnv 1 = some 2) := by
  refine ⟨⟨?_, ?_, ?_, ?_⟩, ⟨?_, ?_, ?_, ?_, ?_, ?_⟩, by decide⟩ <;>
    simp [findNextGroupperImpl]

/-- C3 amended: the trap wrap fires when the current element sits in a
LimitedTrapFocus grouper, is *not* the grouper's first focusable element,
and the default candidate is absent, equals the first element, or falls
outside the grouper; the candidate is then the grouper's last focusable
element on Shift+Tab or the next focusable after the grouper's first
element on Tab. In `[A, B, C] = [1, 2, 3]`: Tab from `C` moves to the
element after `A` (that is `B`), and Shift+Tab from `B` moves to `C`. -/
theorem trap_wrap_amended (env : FocusableEnv) (cur : Elem) (shift : Bool)
    (g : Groupper) (first : Elem)
    (hg : env.getGroupper cur = some g)
    (hfirst : getFirstInGroupper env g.element false = some first)
    (hne : cur ≠ first)
    (hlim : g.isLimited = .limitedTrapFocus)
    (hesc : escapesGroupper env g.element first
      (if shift then env.findPrev cur else env.findNext cur) = true) :
    computeTabNext env cur shift =
      (if shift then env.findLastIn g.element else env.findNextIn first g.element) ∧
    computeTabNext trapGroupperEnv 3 false = some 2 ∧
    computeTabNext trapGroupperEnv 2 true = some 3 := by
  refine ⟨?_, by decide, by decide⟩
  simp only [computeTabNext, hg, hfirst]
  rw [if_pos ⟨hne, hlim, hesc⟩]

/-- Witness for `trap_wrap_amended`: Tab from `C` (element `3`) in the
concrete trap grouper. -/
theorem trap_wrap_amended_witness :
    (trapGroupperEnv.getGroupper 3 = some ⟨10, .limitedTrapFocus⟩ ∧
     getFirstInGroupper trapGroupperEnv 10 false = some 1 ∧
     (3 : Elem) ≠ 1 ∧
     escapesGroupper trapGroupperEnv 10 1 (trapGroupperEnv.findNext 3) = true) ∧
    computeTabNext trapGroupperEnv 3 false = some 2 :=
  ⟨⟨by decide, by decide, by decide, by decide⟩,
   (trap_wrap_amended trapGroupperEnv 3 false ⟨10, .limitedTrapFocus⟩ 1
     (by decide) (by decide) (by decide) rfl (by decide)).2.1⟩

/-- When the element reached is visible, the loop continues into the
remaining chain, defaulting to the element itself when the chain ends. -/
theorem pageWalkAux_eq (visible : Elem → Bool) (x : Elem) (l : List Elem)
    (hx : visible x = true) :
    pageWalkAux visible x l = (pageWalk visible l).getD x := by
  cases l <;> simp [pageWalkAux, pageWalk, hx]

/-- Unfolding the walk on a nonempty chain. -/
theorem pageWalk_cons (visible : Elem → Bool) (x : Elem) (l : List Elem) :
    pageWalk visible (x :: l) = some (pageWalkAux visible x l) := rfl

/-- The page walk stops at the first element of the chain that is not
vertically visible or, when all are visible, at the chain's last element. -/
theorem pageWalk_visible_run (visible : Elem → Bool) (e : Elem) (post : List Elem)
    (hbrk : visible e = false ∨ post = []) :
    ∀ pre : List Elem, (∀ x ∈ pre, visible x = true) →
      pageWalk visible (pre ++ e :: post) = some e := by
  intro pre
  induction pre with
  | nil =>
    intro _
    rcases hbrk with h | h
    · cases post <;> simp [pageWalk, pageWalkAux, h]
    · subst h
      simp [pageWalk, pageWalkAux]
  | cons x pre ih =>
    intro hvis
    have hx : visible x = true := hvis x (by simp)
    have hp := ih (fun y hy => hvis y (by simp [hy]))
    simp [List.cons_append, pageWalk_cons, pageWalkAux_eq visible x _ hx, hp]

/-- C9: on PageDown (resp. PageUp) the handler walks forward (resp.
backward) through the sibling groupers, stopping at the first one that is
not vertically visible in its scroll container or at the end of the run,
returns that grouper (none when there is no next/previous sibling at all),
and scrolls it into view aligned to the top for PageDown and to the bottom
for PageUp. -/
theorem page_keys_edge_of_visible_run (env : GroupperEnv) (gel : Elem)
    (preD : List Elem) (eD : Elem) (postD : List Elem)
    (preU : List Elem) (eU : Elem) (postU : List Elem)
    (hD : nextChain env gel = preD ++ eD :: postD)
    (hDvis : ∀ x ∈ preD, env.verticallyVisible x = true)
    (hDbrk : env.verticallyVisible eD = false ∨ postD = [])
    (hU : prevChain env gel = preU ++ eU :: postU)
    (hUvis : ∀ x ∈ preU, env.verticallyVisible x = true)
    (hUbrk : env.verticallyVisible eU = false ∨ postU = []) :
    handlePageKey env .pageDown gel = some (eD, true) ∧
    handlePageKey env .pageUp gel = some (eU, false) ∧
    (∀ env2 gel2, nextChain env2 gel2 = [] →
      handlePageKey env2 Key.pageDown gel2 = none) ∧
    (∀ env2 gel2, prevChain env2 gel2 = [] →
      handlePageKey env2 Key.pageUp gel2 = none) := by
  refine ⟨?_, ?_, ?_, ?_⟩
  · simp [handlePageKey, findPageDownGroupper, hD,
      pageWalk_visible_run env.verticallyVisible eD postD hDbrk preD hDvis]
  · simp [handlePageKey, findPageUpGroupper, hU,
      pageWalk_visible_run env.verticallyVisible eU postU hUbrk preU hUvis]
  · intro env2 gel2 h
    simp [handlePageKey, findPageDownGroupper, h, pageWalk]
  · intro env2 gel2 h
    simp [handlePageKey, findPageUpGroupper, h, pageWalk]

/-- Witness for `page_keys_edge_of_visible_run`: from grouper `2` of the
four-sibling run where only `1` and `2` are visible. -/
theorem page_keys_edge_of_visible_run_witness :
    (nextChain pageRunEnv 2 = [] ++ 3 :: [4] ∧
     pageRunEnv.verticallyVisible 3 = false ∧
     prevChain pageRunEnv 2 = [] ++ 1 :: []) ∧
    handlePageKey pageRunEnv .pageDown 2 = some (3, true) ∧
    handlePageKey pageRunEnv .pageUp 2 = some (1, false) :=
  ⟨⟨by decide, by decide, by decide⟩,
   (page_keys_edge_of_visible_run pageRunEnv 2 [] 3 [4] [] 1 []
     (by decide) (by decide) (Or.inl (by decide))
     (by decide) (by decide) (Or.inr rfl)).1,
   (page_keys_edge_of_visible_run pageRunEnv 2 [] 3 [4] [] 1 []
     (by decide) (by decide) (Or.inl (by decide))
     (by decide) (by decide) (Or.inr rfl)).2.1⟩

end Tabster
